import Mathlib

/-!
# Verification of the file-transfer server (`app.py`)

A shallow embedding of the Flask file-transfer server's API handlers
(`api_upload`, `api_list_files`, `api_download_file`, `api_delete_file`)
and the state they act on: the in-memory registry `FILES` and the on-disk
blob store (the `uploads/` directory, modelled as an association list from
path to byte content).

Bytes are modelled as `Nat` (values 0..255 in practice; nothing below
depends on the range).  Environment-provided nondeterminism — the
generated `uuid4` id, the timestamp, and I/O failures of `file.save` /
`os.remove` — is passed in as explicit parameters.
-/

/-- One byte of file content. -/
abbrev Byte := Nat

/-- A metadata record stored in the in-memory `FILES` list
(`app.py` builds a dict with keys `id`, `filename`, `path`,
`size_bytes`, `timestamp`). -/
structure FileRecord where
  id : String
  filename : String
  path : String
  size_bytes : Nat
  timestamp : String
deriving DecidableEq, Repr

/-- The blob store: the contents of the `uploads/` directory, as an
association list from file path to byte content. -/
abbrev BlobStore := List (String × List Byte)

/-- Look up the content stored at `path` (models opening the file for read). -/
def storeGet (store : BlobStore) (path : String) : Option (List Byte) :=
  match store.find? (fun pb => pb.1 == path) with
  | some pb => some pb.2
  | none => none

/-- Remove the file at `path` (models a successful `os.remove`). -/
def storeErase (store : BlobStore) (path : String) : BlobStore :=
  store.filter (fun pb => pb.1 != path)

/-- Write `bytes` to `path`, replacing any previous content
(models `file.save(file_path)` completing). -/
def storeSet (store : BlobStore) (path : String) (bytes : List Byte) : BlobStore :=
  (path, bytes) :: storeErase store path

/-- The server's mutable state: the `FILES` registry list and the
`uploads/` directory. -/
structure ServerState where
  FILES : List FileRecord
  store : BlobStore
deriving DecidableEq, Repr

/-- `UPLOAD_FOLDER = 'uploads'` in `app.py`. -/
def UPLOAD_FOLDER : String := "uploads"

/-- `os.path.join(dir, name)` for a relative name on POSIX. -/
def joinPath (dir name : String) : String := dir ++ "/" ++ name

/-- The token check performed at the top of every `api_*` handler:
`if not auth_header or auth_header != f'Bearer {API_KEY}'` denies.
A missing header (`None`) and a header different from `Bearer <key>`
are both denied; an empty-string header fails the equality test as well,
so the `not auth_header` truthiness test adds no extra case. -/
def checkAuth (API_KEY : String) (auth_header : Option String) : Bool :=
  match auth_header with
  | none => false
  | some h => h == "Bearer " ++ API_KEY

/-- `str.split()` whitespace in Python (ASCII part). -/
def pyIsSpace (c : Char) : Bool :=
  c == ' ' || c == '\t' || c == '\n' || c == '\r' ||
  c == Char.ofNat 11 || c == Char.ofNat 12

/-- Characters kept by werkzeug's `_filename_ascii_strip_re`
(`[^A-Za-z0-9_.-]` is removed). -/
def keptChar (c : Char) : Bool :=
  (c.isAlpha || c.isDigit) || c == '_' || c == '.' || c == '-'

/-- Python's `str.split()` (no separator argument) on a character list:
split on runs of whitespace, dropping empty words. -/
def pySplitWs (cs : List Char) : List (List Char) :=
  let r := cs.foldr
    (fun c acc =>
      if pyIsSpace c then
        if acc.1 = ([] : List Char) then ([], acc.2) else ([], acc.1 :: acc.2)
      else (c :: acc.1, acc.2))
    (([] : List Char), ([] : List (List Char)))
  if r.1 = [] then r.2 else r.1 :: r.2

/-- A character stripped from both ends by the final `.strip('._')`. -/
def strippedEndChar (c : Char) : Bool :=
  c == '.' || c == '_'

/-- werkzeug's `secure_filename` on POSIX, for ASCII input (for ASCII
strings the initial NFKD-normalise/ASCII-encode round trip is the
identity; we model it by discarding non-ASCII characters):
replace `os.sep` (`/`) by a space, split on whitespace and re-join with
`_`, drop characters outside `[A-Za-z0-9_.-]`, and strip leading and
trailing `.` and `_`.  (`os.path.altsep` is `None` and `os.name != 'nt'`
on POSIX, so those branches are skipped.) -/
def secure_filename (filename : String) : String :=
  let ascii := filename.toList.filter (fun c => c.toNat < 128)
  let replaced := ascii.map (fun c => if c == '/' then ' ' else c)
  let joined := List.intercalate ['_'] (pySplitWs replaced)
  let cleaned := joined.filter keptChar
  String.mk (((cleaned.dropWhile strippedEndChar).reverse.dropWhile strippedEndChar).reverse)

/-- `get_file_info(file_id)` in `app.py`: first record in `FILES` with a
matching `id`, else `None`. -/
def get_file_info (FILES : List FileRecord) (file_id : String) : Option FileRecord :=
  FILES.find? (fun f => f.id == file_id)

/-- A JSON primitive value appearing in a response object. -/
inductive JVal where
  | s : String → JVal
  | n : Nat → JVal
deriving DecidableEq, Repr

/-- One entry of the `GET /api/files` listing:
`{'id': …, 'filename': …, 'size': …, 'timestamp': …}`. -/
structure ListEntry where
  id : String
  filename : String
  size : Nat
  timestamp : String
deriving DecidableEq, Repr

/-- Body of an HTTP response produced by the handlers. -/
inductive RespBody where
  /-- A flat JSON object, fields in emission order. -/
  | jsonFields : List (String × JVal) → RespBody
  /-- The `{'files': [...]}` object returned by `api_list_files`. -/
  | listing : List ListEntry → RespBody
  /-- Raw file bytes with a `Content-Disposition` header value. -/
  | raw : List Byte → String → RespBody
  /-- Flask's default page for an unhandled exception (HTTP 500). -/
  | internalHtml : RespBody
deriving DecidableEq, Repr

/-- An HTTP response: status code and body. -/
structure Response where
  status : Nat
  body : RespBody
deriving DecidableEq, Repr

/-- The `403 {'error': 'Unauthorized'}` response shared by all handlers. -/
def unauthorizedResp : Response :=
  { status := 403, body := .jsonFields [("error", .s "Unauthorized")] }

/-- The uploaded `file` part of a multipart request: the client-supplied
filename and the content bytes. -/
structure FilePart where
  filename : String
  content : List Byte
deriving DecidableEq, Repr

/-- Outcome of `file.save(file_path)`: either it completes, or it raises
after having written the first `written` bytes of the stream to the
destination file (werkzeug copies the stream into the opened destination
file; an I/O error mid-copy leaves the prefix written so far on disk and
the exception propagates out of the handler). -/
inductive SaveOutcome where
  | ok
  | fail (written : Nat)
deriving DecidableEq, Repr

/-- `POST /api/upload` (`api_upload` in `app.py`).
`filePart` is `request.files['file']` when present (`none` models
`'file' not in request.files`); `file_id` is the generated
`str(uuid.uuid4())`; `timestamp` the formatted `datetime.datetime.now()`;
`save` resolves whether `file.save` completes. -/
def api_upload (API_KEY : String) (st : ServerState) (auth_header : Option String)
    (filePart : Option FilePart) (file_id : String) (timestamp : String)
    (save : SaveOutcome) : Response × ServerState :=
  if ¬ checkAuth API_KEY auth_header then
    (unauthorizedResp, st)
  else
    match filePart with
    | none =>
        ({ status := 400, body := .jsonFields [("error", .s "No file part in the request")] }, st)
    | some file =>
        if file.filename == "" then
          ({ status := 400, body := .jsonFields [("error", .s "No file selected")] }, st)
        else
          let filename := secure_filename file.filename
          let file_path := joinPath UPLOAD_FOLDER file_id
          match save with
          | .fail written =>
              -- file.save raised after writing a prefix; no handler catches it
              ({ status := 500, body := .internalHtml },
               { st with store := storeSet st.store file_path (file.content.take written) })
          | .ok =>
              let st1 : ServerState :=
                { st with store := storeSet st.store file_path file.content }
              let size := ((storeGet st1.store file_path).getD []).length
              let file_info : FileRecord :=
                { id := file_id, filename := filename, path := file_path,
                  size_bytes := size, timestamp := timestamp }
              ({ status := 200, body := .jsonFields
                  [("message", .s "File uploaded successfully"),
                   ("file_id", .s file_id),
                   ("filename", .s filename),
                   ("size", .n size)] },
               { st1 with FILES := st1.FILES ++ [file_info] })

/-- `GET /api/files` (`api_list_files` in `app.py`). -/
def api_list_files (API_KEY : String) (st : ServerState) (auth_header : Option String) :
    Response × ServerState :=
  if ¬ checkAuth API_KEY auth_header then
    (unauthorizedResp, st)
  else
    ({ status := 200, body := .listing (st.FILES.map (fun f =>
        { id := f.id, filename := f.filename, size := f.size_bytes,
          timestamp := f.timestamp })) }, st)

/-- The sequence of reads `api_download_file` performs on the opened blob
to build the response body: the source calls `f.read()` exactly once,
reading the entire blob into a single buffer. -/
def downloadReadChunks (blob : List Byte) : List (List Byte) := [blob]

/-- `GET /api/download/<file_id>` (`api_download_file` in `app.py`).
If the registry record's file is missing from disk, `open` raises and the
`except` branch returns a 500. -/
def api_download_file (API_KEY : String) (st : ServerState) (auth_header : Option String)
    (file_id : String) : Response × ServerState :=
  if ¬ checkAuth API_KEY auth_header then
    (unauthorizedResp, st)
  else
    match get_file_info st.FILES file_id with
    | none =>
        ({ status := 404, body := .jsonFields [("error", .s "File not found")] }, st)
    | some file_info =>
        match storeGet st.store file_info.path with
        | none =>
            ({ status := 500, body := .jsonFields
                [("error", .s "Error downloading file")] }, st)
        | some bytes =>
            ({ status := 200, body := .raw (downloadReadChunks bytes).flatten
                ("attachment; filename=" ++ file_info.filename) }, st)

/-- `DELETE /api/files/<file_id>` (`api_delete_file` in `app.py`).
`os.remove` raises when the file is absent, and `removeFails` resolves
the remaining environmental failure modes (e.g. permissions), which leave
the file in place; either way the `except` branch answers 500 and the
registry is not touched.  On success the record(s) with this id are
filtered out of `FILES`. -/
def api_delete_file (API_KEY : String) (st : ServerState) (auth_header : Option String)
    (file_id : String) (removeFails : Bool) : Response × ServerState :=
  if ¬ checkAuth API_KEY auth_header then
    (unauthorizedResp, st)
  else
    match get_file_info st.FILES file_id with
    | none =>
        ({ status := 404, body := .jsonFields [("error", .s "File not found")] }, st)
    | some file_info =>
        if (storeGet st.store file_info.path).isNone || removeFails then
          ({ status := 500, body := .jsonFields
              [("error", .s "Error deleting file")] }, st)
        else
          ({ status := 200, body := .jsonFields [("message", .s "File deleted successfully")] },
           { FILES := st.FILES.filter (fun f => f.id != file_id),
             store := storeErase st.store file_info.path })

/-- One API request with its environment-resolved nondeterminism. -/
inductive ApiRequest where
  | upload (filePart : Option FilePart) (file_id : String) (timestamp : String)
      (save : SaveOutcome)
  | listFiles
  | download (file_id : String)
  | delete (file_id : String) (removeFails : Bool)
deriving DecidableEq, Repr

/-- Dispatch one request to its handler. -/
def handle (API_KEY : String) (st : ServerState) (auth_header : Option String) :
    ApiRequest → Response × ServerState
  | .upload filePart file_id timestamp save =>
      api_upload API_KEY st auth_header filePart file_id timestamp save
  | .listFiles => api_list_files API_KEY st auth_header
  | .download file_id => api_download_file API_KEY st auth_header file_id
  | .delete file_id removeFails =>
      api_delete_file API_KEY st auth_header file_id removeFails

/-- The registry/blob-store alignment invariant of the spec: a record is
in `FILES` iff its backing blob exists in the store — every record's path
is present on disk, and every file on disk is some record's path. -/
def Invariant (st : ServerState) : Prop :=
  (∀ r ∈ st.FILES, (storeGet st.store r.path).isSome = true) ∧
  (∀ pb ∈ st.store, ∃ r ∈ st.FILES, r.path = pb.1)

instance (st : ServerState) : Decidable (Invariant st) := by
  unfold Invariant; infer_instance

/-- Structural fact about all states the server actually reaches: each
record's `path` is `os.path.join(UPLOAD_FOLDER, id)` for its own id
(upload line `file_path = os.path.join(UPLOAD_FOLDER, file_id)`). -/
def PathsConsistent (st : ServerState) : Prop :=
  ∀ r ∈ st.FILES, r.path = joinPath UPLOAD_FOLDER r.id

instance (st : ServerState) : Decidable (PathsConsistent st) := by
  unfold PathsConsistent; infer_instance

/-- Extract the (first) field with the given name from a JSON-object body. -/
def jsonField (body : RespBody) (name : String) : Option JVal :=
  match body with
  | .jsonFields l => (l.find? (fun f => f.1 == name)).map Prod.snd
  | _ => none

/-- The field names of a JSON-object body, in emission order. -/
def jsonFieldNames : RespBody → Option (List String)
  | .jsonFields l => some (l.map Prod.fst)
  | _ => none

/-- The request's `file.save` call (if any) completes rather than raising
mid-write. -/
def ApiRequest.saveCompletes : ApiRequest → Prop
  | .upload _ _ _ (.fail _) => False
  | _ => True

/-- Test fixture: the empty server state (fresh process, no uploads yet). -/
def st0 : ServerState := { FILES := [], store := [] }

/-- Test fixture: a stored record with id `"X"` and a 2-byte blob. -/
def recX : FileRecord :=
  { id := "X", filename := "a.txt", path := "uploads/X", size_bytes := 2, timestamp := "t" }

/-- Test fixture: a server state holding exactly `recX` and its blob. -/
def stX : ServerState := { FILES := [recX], store := [("uploads/X", [1, 2])] }

/-- Test fixture: a stored record with id `"X"` and a 1-byte blob. -/
def recX1 : FileRecord :=
  { id := "X", filename := "a.txt", path := "uploads/X", size_bytes := 1, timestamp := "t0" }

/-- Test fixture: a server state holding exactly `recX1` and its blob. -/
def stX1 : ServerState := { FILES := [recX1], store := [("uploads/X", [7])] }

/-! ## Basic lemmas about the blob store and the registry -/

theorem storeGet_storeErase_ne (store : BlobStore) (path q : String) (h : q ≠ path) :
    storeGet (storeErase store path) q = storeGet store q := by
  unfold storeGet storeErase
  rw [List.find?_filter]
  have hpred : (fun (pb : String × List Byte) =>
      decide ((pb.1 != path) = true ∧ (pb.1 == q) = true)) = fun pb => pb.1 == q := by
    funext pb
    by_cases hq : pb.1 = q
    · subst hq
      simp [bne, h]
    · simp [hq]
  rw [hpred]

theorem storeGet_storeErase_self (store : BlobStore) (path : String) :
    storeGet (storeErase store path) path = none := by
  unfold storeGet storeErase
  have : List.find? (fun pb => pb.1 == path) (store.filter (fun pb => pb.1 != path)) = none := by
    rw [List.find?_eq_none]
    intro pb hpb
    have := (List.mem_filter.mp hpb).2
    simpa [bne] using this
  rw [this]

theorem storeGet_storeSet_self (store : BlobStore) (path : String) (bytes : List Byte) :
    storeGet (storeSet store path bytes) path = some bytes := by
  unfold storeGet storeSet
  simp [List.find?]

theorem storeGet_storeSet_ne (store : BlobStore) (path q : String) (bytes : List Byte)
    (h : q ≠ path) :
    storeGet (storeSet store path bytes) q = storeGet store q := by
  have hpq : (path == q) = false := by simp [Ne.symm h]
  calc storeGet (storeSet store path bytes) q
      = storeGet (storeErase store path) q := by
        unfold storeGet storeSet
        rw [List.find?]
        simp only [hpq]
    _ = storeGet store q := storeGet_storeErase_ne store path q h

theorem get_file_info_append (l₁ l₂ : List FileRecord) (file_id : String) :
    get_file_info (l₁ ++ l₂) file_id =
      (get_file_info l₁ file_id).or (get_file_info l₂ file_id) := by
  unfold get_file_info
  exact List.find?_append

theorem get_file_info_mem {FILES : List FileRecord} {file_id : String} {fi : FileRecord}
    (h : get_file_info FILES file_id = some fi) : fi ∈ FILES :=
  List.mem_of_find?_eq_some h

theorem get_file_info_id {FILES : List FileRecord} {file_id : String} {fi : FileRecord}
    (h : get_file_info FILES file_id = some fi) : fi.id = file_id := by
  have := List.find?_some h
  simpa using this

theorem get_file_info_filter_out (FILES : List FileRecord) (file_id : String) :
    get_file_info (FILES.filter (fun f => f.id != file_id)) file_id = none := by
  unfold get_file_info
  rw [List.find?_eq_none]
  intro f hf
  have := (List.mem_filter.mp hf).2
  simpa [bne] using this

theorem joinPath_right_inj {dir a b : String} (h : joinPath dir a = joinPath dir b) :
    a = b := by
  unfold joinPath at h
  have hd : (dir ++ "/" ++ a).data = (dir ++ "/" ++ b).data := congrArg String.data h
  rw [String.data_append, String.data_append, String.data_append, String.data_append] at hd
  exact String.ext (List.append_cancel_left hd)

theorem api_list_files_state (API_KEY : String) (st : ServerState)
    (auth_header : Option String) : (api_list_files API_KEY st auth_header).2 = st := by
  unfold api_list_files
  split <;> rfl

theorem api_download_file_state (API_KEY : String) (st : ServerState)
    (auth_header : Option String) (file_id : String) :
    (api_download_file API_KEY st auth_header file_id).2 = st := by
  unfold api_download_file
  split
  · rfl
  · split
    · rfl
    · split <;> rfl

/-- Computation of a valid upload: the 200 response with the four JSON
fields, the record appended to `FILES`, and the content written to the
blob store under `uploads/<file_id>`. -/
theorem api_upload_ok_eq (API_KEY : String) (st : ServerState)
    (auth_header : Option String) (fp : FilePart) (file_id timestamp : String)
    (hauth : checkAuth API_KEY auth_header = true) (hname : fp.filename ≠ "") :
    api_upload API_KEY st auth_header (some fp) file_id timestamp .ok =
      ({ status := 200, body := .jsonFields
          [("message", .s "File uploaded successfully"),
           ("file_id", .s file_id),
           ("filename", .s (secure_filename fp.filename)),
           ("size", .n fp.content.length)] },
       { FILES := st.FILES ++ [{
            id := file_id, filename := secure_filename fp.filename,
            path := joinPath UPLOAD_FOLDER file_id, size_bytes := fp.content.length,
            timestamp := timestamp }],
         store := storeSet st.store (joinPath UPLOAD_FOLDER file_id) fp.content }) := by
  have hbeq : (fp.filename == "") = false := by simp [hname]
  simp [api_upload, hauth, hbeq, storeGet_storeSet_self]

/-- A denied upload returns the shared 403 response and the state untouched. -/
theorem api_upload_denied (API_KEY : String) (st : ServerState)
    (auth_header : Option String) (filePart : Option FilePart)
    (file_id timestamp : String) (save : SaveOutcome)
    (h : checkAuth API_KEY auth_header = false) :
    api_upload API_KEY st auth_header filePart file_id timestamp save =
      (unauthorizedResp, st) := by
  rw [api_upload.eq_def]
  simp [h]

/-- An authorized upload without a `file` part answers 400, state untouched. -/
theorem api_upload_no_part (API_KEY : String) (st : ServerState)
    (auth_header : Option String) (file_id timestamp : String) (save : SaveOutcome)
    (h : checkAuth API_KEY auth_header = true) :
    api_upload API_KEY st auth_header none file_id timestamp save =
      ({ status := 400, body := .jsonFields [("error", .s "No file part in the request")] },
       st) := by
  rw [api_upload.eq_def]
  simp [h]

/-- An authorized upload with an empty raw filename answers 400, state
untouched. -/
theorem api_upload_empty_name (API_KEY : String) (st : ServerState)
    (auth_header : Option String) (fp : FilePart) (file_id timestamp : String)
    (save : SaveOutcome)
    (h : checkAuth API_KEY auth_header = true) (hname : fp.filename = "") :
    api_upload API_KEY st auth_header (some fp) file_id timestamp save =
      ({ status := 400, body := .jsonFields [("error", .s "No file selected")] }, st) := by
  rw [api_upload.eq_def]
  simp [h, hname]

/-- Writing a fresh blob and appending its record preserves the invariant. -/
theorem invariant_insert (st : ServerState) (r : FileRecord) (bytes : List Byte)
    (hinv : Invariant st) (hpaths : PathsConsistent st)
    (hr : r.path = joinPath UPLOAD_FOLDER r.id) :
    Invariant { FILES := st.FILES ++ [r], store := storeSet st.store r.path bytes } ∧
    PathsConsistent { FILES := st.FILES ++ [r], store := storeSet st.store r.path bytes } := by
  refine ⟨⟨?_, ?_⟩, ?_⟩
  · intro x hx
    rcases List.mem_append.mp hx with hx | hx
    · by_cases hp : x.path = r.path
      · rw [hp, storeGet_storeSet_self]
        rfl
      · rw [storeGet_storeSet_ne _ _ _ _ hp]
        exact hinv.1 x hx
    · rw [List.mem_singleton.mp hx, storeGet_storeSet_self]
      rfl
  · intro pb hpb
    rcases List.mem_cons.mp hpb with h | h
    · exact ⟨r, List.mem_append_right _ (List.mem_singleton_self r), by rw [h]⟩
    · have hmem : pb ∈ st.store := (List.mem_filter.mp h).1
      obtain ⟨x, hx, hxp⟩ := hinv.2 pb hmem
      exact ⟨x, List.mem_append_left _ hx, hxp⟩
  · intro x hx
    rcases List.mem_append.mp hx with hx | hx
    · exact hpaths x hx
    · rw [List.mem_singleton.mp hx]
      exact hr

/-- Removing a found record's blob and then its record preserves the
invariant (in reachable states, where paths are `uploads/<id>`). -/
theorem invariant_delete (st : ServerState) (fi : FileRecord) (file_id : String)
    (hinv : Invariant st) (hpaths : PathsConsistent st)
    (hfound : get_file_info st.FILES file_id = some fi) :
    Invariant { FILES := st.FILES.filter (fun f => f.id != file_id),
                store := storeErase st.store fi.path } ∧
    PathsConsistent { FILES := st.FILES.filter (fun f => f.id != file_id),
                      store := storeErase st.store fi.path } := by
  have hfiid : fi.id = file_id := get_file_info_id hfound
  have hfimem : fi ∈ st.FILES := get_file_info_mem hfound
  have hfipath : fi.path = joinPath UPLOAD_FOLDER file_id := by
    rw [hpaths fi hfimem, hfiid]
  refine ⟨⟨?_, ?_⟩, ?_⟩
  · intro x hx
    obtain ⟨hxm, hxid⟩ := List.mem_filter.mp hx
    have hxid' : x.id ≠ file_id := by simpa [bne] using hxid
    have hxpath : x.path ≠ fi.path := fun hcon => hxid' (joinPath_right_inj
      (by rw [← hpaths x hxm, hcon, hfipath]))
    rw [storeGet_storeErase_ne _ _ _ hxpath]
    exact hinv.1 x hxm
  · intro pb hpb
    obtain ⟨hps, hpne⟩ := List.mem_filter.mp hpb
    have hpne' : pb.1 ≠ fi.path := by simpa [bne] using hpne
    obtain ⟨x, hx, hxp⟩ := hinv.2 pb hps
    have hxid : x.id ≠ file_id := by
      intro hcon
      apply hpne'
      rw [← hxp, hpaths x hx, hcon, ← hfipath]
    exact ⟨x, List.mem_filter.mpr ⟨hx, by simpa [bne] using hxid⟩, hxp⟩
  · intro x hx
    exact hpaths x (List.mem_filter.mp hx).1

/-! ## The claims -/

/-- C3: every API operation (upload, list, download, delete) invoked with a
missing or incorrect token answers exactly the constant
`403 {'error': 'Unauthorized'}` response — the same response for a missing
header as for a wrong one, so the two are indistinguishable — and the
registry and blob store are returned unchanged. -/
theorem c3_unauthorized_uniform (API_KEY : String) (st : ServerState)
    (auth_header : Option String) (req : ApiRequest)
    (h : checkAuth API_KEY auth_header = false) :
    handle API_KEY st auth_header req = (unauthorizedResp, st) ∧
    unauthorizedResp.status = 403 := by
  refine ⟨?_, rfl⟩
  cases req <;>
    simp [handle, api_upload, api_list_files, api_download_file, api_delete_file, h]

theorem c3_witness :
    (checkAuth "secret" none = false ∧
      handle "secret" stX none .listFiles = (unauthorizedResp, stX) ∧
      unauthorizedResp.status = 403) ∧
    (checkAuth "secret" (some "Bearer wrong") = false ∧
      handle "secret" stX (some "Bearer wrong") (.delete "X" false) =
        (unauthorizedResp, stX) ∧
      unauthorizedResp.status = 403) :=
  ⟨⟨rfl, c3_unauthorized_uniform "secret" stX none .listFiles rfl⟩,
   ⟨by decide, c3_unauthorized_uniform "secret" stX
      (some "Bearer wrong") (.delete "X" false) (by decide)⟩⟩

/-- C7: an authorized upload with no `file` part, or whose client-supplied
filename is the empty string, answers 400 and leaves the registry and the
blob store untouched — in particular no blob write happens, whatever the
`file.save` outcome parameter would have been. -/
theorem c7_bad_request_no_write (API_KEY : String) (st : ServerState)
    (auth_header : Option String) (filePart : Option FilePart)
    (file_id timestamp : String) (save : SaveOutcome)
    (hauth : checkAuth API_KEY auth_header = true)
    (hbad : filePart = none ∨ ∃ fp, filePart = some fp ∧ fp.filename = "") :
    (api_upload API_KEY st auth_header filePart file_id timestamp save).1.status = 400 ∧
    (api_upload API_KEY st auth_header filePart file_id timestamp save).2 = st := by
  rcases hbad with h | ⟨fp, h, hname⟩
  · subst h
    simp [api_upload, hauth]
  · subst h
    simp [api_upload, hauth, hname]

theorem c7_witness :
    (checkAuth "k" (some "Bearer k") = true ∧
      (api_upload "k" st0 (some "Bearer k") none "id0" "t0" .ok).1.status = 400 ∧
      (api_upload "k" st0 (some "Bearer k") none "id0" "t0" .ok).2 = st0) ∧
    ((api_upload "k" st0 (some "Bearer k")
          (some { filename := "", content := [1] }) "id0" "t0" .ok).1.status = 400 ∧
      (api_upload "k" st0 (some "Bearer k")
          (some { filename := "", content := [1] }) "id0" "t0" .ok).2 = st0) :=
  ⟨⟨by decide, c7_bad_request_no_write "k" st0
      (some "Bearer k") none "id0" "t0" .ok (by decide) (Or.inl rfl)⟩,
   c7_bad_request_no_write "k" st0 (some "Bearer k")
      (some { filename := "", content := [1] }) "id0" "t0" .ok (by decide)
      (Or.inr ⟨{ filename := "", content := [1] }, rfl, rfl⟩)⟩

/-- C8: a delete whose registry lookup succeeds but whose `os.remove` raises
answers 500 and does not touch the state: the record is still present (and
found by a fresh lookup), and the blob store is unchanged. -/
theorem c8_delete_remove_failure (API_KEY : String) (st : ServerState)
    (auth_header : Option String) (file_id : String) (fi : FileRecord)
    (hauth : checkAuth API_KEY auth_header = true)
    (hfound : get_file_info st.FILES file_id = some fi) :
    (api_delete_file API_KEY st auth_header file_id true).1.status = 500 ∧
    (api_delete_file API_KEY st auth_header file_id true).2 = st ∧
    get_file_info (api_delete_file API_KEY st auth_header file_id true).2.FILES file_id
      = some fi := by
  simp [api_delete_file, hauth, hfound]

theorem c8_witness :
    (checkAuth "k" (some "Bearer k") = true ∧
      get_file_info stX.FILES "X" = some recX) ∧
    ((api_delete_file "k" stX (some "Bearer k") "X" true).1.status = 500 ∧
      (api_delete_file "k" stX (some "Bearer k") "X" true).2 = stX ∧
      get_file_info (api_delete_file "k" stX (some "Bearer k") "X" true).2.FILES "X" =
        some recX) :=
  ⟨⟨by decide, by decide⟩,
   c8_delete_remove_failure "k" stX (some "Bearer k") "X" recX (by decide) (by decide)⟩

/-- C4 (counterexample): a concrete successful upload answers 200, but its
JSON body's field names are `message`, `file_id`, `filename`, `size` — not
exactly `id`, `filename`, `size`; in particular no field is named `id`. -/
theorem c4_counterexample :
    (api_upload "k" st0 (some "Bearer k")
        (some { filename := "a.txt", content := [1, 2, 3] }) "X" "t" .ok).1.status = 200 ∧
    jsonFieldNames (api_upload "k" st0 (some "Bearer k")
        (some { filename := "a.txt", content := [1, 2, 3] }) "X" "t" .ok).1.body =
      some ["message", "file_id", "filename", "size"] ∧
    jsonFieldNames (api_upload "k" st0 (some "Bearer k")
        (some { filename := "a.txt", content := [1, 2, 3] }) "X" "t" .ok).1.body ≠
      some ["id", "filename", "size"] := by decide

/-- C4 (amended): every successful upload answers 200 with a JSON body holding
exactly the fields `message`, `file_id`, `filename` and `size`, in that
order, where `file_id` is the server-generated identifier, `filename` the
sanitized display name, and `size` the stored byte count. -/
theorem c4_upload_response_fields (API_KEY : String) (st : ServerState)
    (auth_header : Option String) (fp : FilePart) (file_id timestamp : String)
    (hauth : checkAuth API_KEY auth_header = true) (hname : fp.filename ≠ "") :
    (api_upload API_KEY st auth_header (some fp) file_id timestamp .ok).1 =
      { status := 200, body := .jsonFields
          [("message", .s "File uploaded successfully"),
           ("file_id", .s file_id),
           ("filename", .s (secure_filename fp.filename)),
           ("size", .n fp.content.length)] } := by
  have hbeq : (fp.filename == "") = false := by simp [hname]
  simp [api_upload, hauth, hbeq, storeGet_storeSet_self]

theorem c4_witness :
    (checkAuth "k" (some "Bearer k") = true ∧ "b.txt" ≠ "") ∧
    (api_upload "k" st0 (some "Bearer k")
        (some { filename := "b.txt", content := [9] }) "Y" "t" .ok).1 =
      { status := 200, body := .jsonFields
          [("message", .s "File uploaded successfully"),
           ("file_id", .s "Y"),
           ("filename", .s (secure_filename "b.txt")),
           ("size", .n 1)] } :=
  ⟨⟨by decide, by decide⟩,
   c4_upload_response_fields "k" st0 (some "Bearer k")
     { filename := "b.txt", content := [9] } "Y" "t" (by decide) (by decide)⟩

/-- C5 (counterexample): with a record of id `"X"` already in the registry,
an upload whose generated id is also `"X"` succeeds with 200 — no
`DuplicateID` failure, no `InternalError`, no blob cleanup — and afterwards
the registry holds two records with id `"X"`. -/
theorem c5_counterexample :
    get_file_info stX1.FILES "X" ≠ none ∧
    (api_upload "k" stX1 (some "Bearer k")
        (some { filename := "b.txt", content := [1, 2] }) "X" "t1" .ok).1.status = 200 ∧
    ((api_upload "k" stX1 (some "Bearer k")
        (some { filename := "b.txt", content := [1, 2] }) "X" "t1" .ok).2.FILES.filter
      (fun f => f.id == "X")).length = 2 := by decide

/-- C5 (amended): registry insertion in the upload handler is an unconditional
append: whether or not a record with the generated id already exists, a valid
upload answers 200 and the new record is appended to `FILES` — there is no
duplicate-id check, no `DuplicateID` failure, and no blob-cleanup path. -/
theorem c5_insert_unconditional (API_KEY : String) (st : ServerState)
    (auth_header : Option String) (fp : FilePart) (file_id timestamp : String)
    (hauth : checkAuth API_KEY auth_header = true) (hname : fp.filename ≠ "") :
    (api_upload API_KEY st auth_header (some fp) file_id timestamp .ok).1.status = 200 ∧
    (api_upload API_KEY st auth_header (some fp) file_id timestamp .ok).2.FILES =
      st.FILES ++ [{
          id := file_id, filename := secure_filename fp.filename,
          path := joinPath UPLOAD_FOLDER file_id, size_bytes := fp.content.length,
          timestamp := timestamp }] := by
  have hbeq : (fp.filename == "") = false := by simp [hname]
  simp [api_upload, hauth, hbeq, storeGet_storeSet_self]

theorem c5_witness :
    (checkAuth "k" (some "Bearer k") = true ∧ "b.txt" ≠ "") ∧
    ((api_upload "k" stX1 (some "Bearer k")
        (some { filename := "b.txt", content := [1, 2] }) "X" "t1" .ok).1.status = 200 ∧
      (api_upload "k" stX1 (some "Bearer k")
        (some { filename := "b.txt", content := [1, 2] }) "X" "t1" .ok).2.FILES =
        stX1.FILES ++
        [{ id := "X", filename := secure_filename "b.txt",
           path := joinPath UPLOAD_FOLDER "X", size_bytes := 2, timestamp := "t1" }]) :=
  ⟨⟨by decide, by decide⟩,
   c5_insert_unconditional "k" stX1 (some "Bearer k")
     { filename := "b.txt", content := [1, 2] } "X" "t1" (by decide) (by decide)⟩

/-- C10: an authorized upload whose raw client filename `"../.."` is
non-empty but consists only of path separators and dots passes the
pre-sanitization emptiness check, succeeds with 200, and inserts a registry
record whose display filename is the empty string, since
`secure_filename "../.." = ""`. -/
theorem c10_separators_only_name_empty_display :
    "../.." ≠ "" ∧ secure_filename "../.." = "" ∧
    (api_upload "k" st0 (some "Bearer k")
        (some { filename := "../..", content := [1, 2] }) "X" "t" .ok).1.status = 200 ∧
    (api_upload "k" st0 (some "Bearer k")
        (some { filename := "../..", content := [1, 2] }) "X" "t" .ok).2.FILES =
      [{ id := "X", filename := "", path := "uploads/X", size_bytes := 2, timestamp := "t" }]
    := by decide

/-- C1: for every valid upload (correct token, file part present, non-empty
raw filename, fresh generated id), a subsequent download of the returned id
answers 200 with a body that is byte-for-byte the uploaded content, and the
`size` field of the upload response equals the number of bytes in that
download body. -/
theorem c1_upload_download_roundtrip (API_KEY : String) (st : ServerState)
    (auth_header : Option String) (fp : FilePart) (file_id timestamp : String)
    (hauth : checkAuth API_KEY auth_header = true) (hname : fp.filename ≠ "")
    (hfresh : get_file_info st.FILES file_id = none) :
    ∃ bytes disp,
      (api_download_file API_KEY
          (api_upload API_KEY st auth_header (some fp) file_id timestamp .ok).2
          auth_header file_id).1 = { status := 200, body := .raw bytes disp } ∧
      bytes = fp.content ∧
      jsonField (api_upload API_KEY st auth_header (some fp) file_id timestamp .ok).1.body
        "size" = some (.n bytes.length) := by
  have hup := api_upload_ok_eq API_KEY st auth_header fp file_id timestamp hauth hname
  refine ⟨fp.content, "attachment; filename=" ++ secure_filename fp.filename, ?_, rfl, ?_⟩
  · rw [hup]
    have hrec : get_file_info (st.FILES ++ [{
        id := file_id, filename := secure_filename fp.filename,
        path := joinPath UPLOAD_FOLDER file_id, size_bytes := fp.content.length,
        timestamp := timestamp }]) file_id = some {
          id := file_id, filename := secure_filename fp.filename,
          path := joinPath UPLOAD_FOLDER file_id, size_bytes := fp.content.length,
          timestamp := timestamp } := by
      rw [get_file_info_append, hfresh]
      simp [get_file_info, List.find?]
    simp [api_download_file, hauth, hrec, storeGet_storeSet_self, downloadReadChunks]
  · rw [hup]
    rfl

theorem c1_witness :
    (checkAuth "k" (some "Bearer k") = true ∧ "a.txt" ≠ "" ∧
      get_file_info st0.FILES "X" = none) ∧
    (∃ bytes disp,
      (api_download_file "k"
          (api_upload "k" st0 (some "Bearer k")
            (some { filename := "a.txt", content := [5, 6, 7] }) "X" "t" .ok).2
          (some "Bearer k") "X").1 = { status := 200, body := .raw bytes disp } ∧
      bytes = [5, 6, 7] ∧
      jsonField (api_upload "k" st0 (some "Bearer k")
          (some { filename := "a.txt", content := [5, 6, 7] }) "X" "t" .ok).1.body
        "size" = some (.n bytes.length)) :=
  ⟨⟨by decide, by decide, rfl⟩,
   c1_upload_download_roundtrip "k" st0 (some "Bearer k")
     { filename := "a.txt", content := [5, 6, 7] } "X" "t" (by decide) (by decide) rfl⟩

/-- C6: whenever a delete of an id succeeds (status 200), the resulting
state no longer lists that id, a subsequent download of the id answers 404
`File not found`, and a second delete of the same id also answers 404
rather than success. -/
theorem c6_delete_then_gone (API_KEY : String) (st : ServerState)
    (auth_header : Option String) (file_id : String) (removeFails : Bool)
    (hsucc : (api_delete_file API_KEY st auth_header file_id removeFails).1.status = 200) :
    (∃ l, (api_list_files API_KEY
        (api_delete_file API_KEY st auth_header file_id removeFails).2 auth_header).1.body =
          .listing l ∧ ∀ e ∈ l, e.id ≠ file_id) ∧
    (api_download_file API_KEY
        (api_delete_file API_KEY st auth_header file_id removeFails).2
        auth_header file_id).1 =
      { status := 404, body := .jsonFields [("error", .s "File not found")] } ∧
    (api_delete_file API_KEY
        (api_delete_file API_KEY st auth_header file_id removeFails).2
        auth_header file_id removeFails).1 =
      { status := 404, body := .jsonFields [("error", .s "File not found")] } := by
  cases h1 : checkAuth API_KEY auth_header with
  | false =>
      rw [api_delete_file] at hsucc
      simp [h1, unauthorizedResp] at hsucc
  | true =>
      cases h2 : get_file_info st.FILES file_id with
      | none =>
          rw [api_delete_file] at hsucc
          simp [h1, h2] at hsucc
      | some fi =>
          cases h3 : (storeGet st.store fi.path).isNone || removeFails with
          | true =>
              rw [api_delete_file] at hsucc
              simp [h1, h2, h3] at hsucc
          | false =>
              have hdel : api_delete_file API_KEY st auth_header file_id removeFails =
                  ({ status := 200,
                     body := .jsonFields [("message", .s "File deleted successfully")] },
                   { FILES := st.FILES.filter (fun f => f.id != file_id),
                     store := storeErase st.store fi.path }) := by
                rw [api_delete_file]
                simp [h1, h2, h3]
              rw [hdel]
              have hgone : get_file_info
                  (st.FILES.filter (fun f => f.id != file_id)) file_id = none :=
                get_file_info_filter_out st.FILES file_id
              refine ⟨⟨(st.FILES.filter (fun f => f.id != file_id)).map (fun f =>
                  { id := f.id, filename := f.filename, size := f.size_bytes,
                    timestamp := f.timestamp }), ?_, ?_⟩, ?_, ?_⟩
              · simp [api_list_files, h1]
              · intro e he
                obtain ⟨f, hf, rfl⟩ := List.mem_map.mp he
                have := (List.mem_filter.mp hf).2
                simpa [bne] using this
              · simp [api_download_file, h1, hgone]
              · rw [api_delete_file]
                simp [h1, hgone]

theorem c6_witness :
    ((api_delete_file "k" stX (some "Bearer k") "X" false).1.status = 200) ∧
    ((∃ l, (api_list_files "k"
        (api_delete_file "k" stX (some "Bearer k") "X" false).2 (some "Bearer k")).1.body =
          .listing l ∧ ∀ e ∈ l, e.id ≠ "X") ∧
      (api_download_file "k"
          (api_delete_file "k" stX (some "Bearer k") "X" false).2
          (some "Bearer k") "X").1 =
        { status := 404, body := .jsonFields [("error", .s "File not found")] } ∧
      (api_delete_file "k"
          (api_delete_file "k" stX (some "Bearer k") "X" false).2
          (some "Bearer k") "X" false).1 =
        { status := 404, body := .jsonFields [("error", .s "File not found")] }) :=
  ⟨by decide,
   c6_delete_then_gone "k" stX (some "Bearer k") "X" false (by decide)⟩

/-- C9 (counterexample): the download handler's read pattern is a single
`f.read()` of the entire blob, so its chunks are not bounded: for every
candidate bound there is a blob — one byte longer — that the handler reads
in one chunk exceeding that bound.  This refutes the claim that the body is
streamed in bounded-size chunks. -/
theorem c9_counterexample :
    ¬ ∃ c : Nat, ∀ blob : List Byte, ∀ chunk ∈ downloadReadChunks blob,
      chunk.length ≤ c := by
  rintro ⟨c, hc⟩
  have h := hc (List.replicate (c + 1) 0) (List.replicate (c + 1) 0)
    (by simp [downloadReadChunks])
  rw [List.length_replicate] at h
  omega

/-- C9 (amended): for every download of an existing id whose blob is on
disk, the handler reads the blob with a single whole-blob `f.read()` — one
chunk equal to the entire content — and the 200 response body is that one
in-memory buffer. -/
theorem c9_single_whole_read (API_KEY : String) (st : ServerState)
    (auth_header : Option String) (file_id : String) (fi : FileRecord)
    (bytes : List Byte)
    (hauth : checkAuth API_KEY auth_header = true)
    (hfound : get_file_info st.FILES file_id = some fi)
    (hblob : storeGet st.store fi.path = some bytes) :
    downloadReadChunks bytes = [bytes] ∧
    (api_download_file API_KEY st auth_header file_id).1 =
      { status := 200,
        body := .raw ((downloadReadChunks bytes).flatten)
          ("attachment; filename=" ++ fi.filename) } := by
  refine ⟨rfl, ?_⟩
  simp [api_download_file, hauth, hfound, hblob]

theorem c9_witness :
    (checkAuth "k" (some "Bearer k") = true ∧
      get_file_info stX.FILES "X" = some recX ∧
      storeGet stX.store recX.path = some [1, 2]) ∧
    (downloadReadChunks [1, 2] = [[1, 2]] ∧
      (api_download_file "k" stX (some "Bearer k") "X").1 =
        { status := 200,
          body := .raw ((downloadReadChunks [1, 2]).flatten)
            ("attachment; filename=" ++ recX.filename) }) :=
  ⟨⟨by decide, by decide, by decide⟩,
   c9_single_whole_read "k" stX (some "Bearer k") "X" recX [1, 2]
     (by decide) (by decide) (by decide)⟩

/-- C2 (counterexample): from the empty state (which satisfies the
registry/blob invariant), a valid upload whose `file.save` raises after
writing 1 of 2 bytes produces a 500, no registry record, and a partial
blob left at `uploads/X`: an upload that fails partway leaves an orphan
blob, violating the invariant. -/
theorem c2_counterexample :
    Invariant st0 ∧
    (api_upload "k" st0 (some "Bearer k")
        (some { filename := "a.txt", content := [1, 2] }) "X" "t" (.fail 1)).1.status = 500 ∧
    (api_upload "k" st0 (some "Bearer k")
        (some { filename := "a.txt", content := [1, 2] }) "X" "t" (.fail 1)).2.FILES = [] ∧
    storeGet (api_upload "k" st0 (some "Bearer k")
        (some { filename := "a.txt", content := [1, 2] }) "X" "t" (.fail 1)).2.store
      "uploads/X" = some [1] ∧
    ¬ Invariant (api_upload "k" st0 (some "Bearer k")
        (some { filename := "a.txt", content := [1, 2] }) "X" "t" (.fail 1)).2 := by decide

/-- C2 (amended): every operation that does not abort mid-write — upload
whose `file.save` completes, list, download, and delete with any outcome —
preserves the invariant that a record is in the registry iff its blob is in
the store, together with the reachable-state fact that each record's path
is `uploads/<its id>`.  (An upload whose save fails partway is the one
violation, per the counterexample.) -/
theorem c2_invariant_preserved (API_KEY : String) (st : ServerState)
    (auth_header : Option String) (req : ApiRequest) (hreq : req.saveCompletes)
    (hinv : Invariant st) (hpaths : PathsConsistent st) :
    Invariant (handle API_KEY st auth_header req).2 ∧
    PathsConsistent (handle API_KEY st auth_header req).2 := by
  cases req with
  | listFiles =>
      rw [handle, api_list_files_state]
      exact ⟨hinv, hpaths⟩
  | download file_id =>
      rw [handle, api_download_file_state]
      exact ⟨hinv, hpaths⟩
  | delete file_id removeFails =>
      rw [handle]
      cases h1 : checkAuth API_KEY auth_header with
      | false =>
          rw [api_delete_file]
          simp only [h1, Bool.false_eq_true, not_false_eq_true, if_true]
          exact ⟨hinv, hpaths⟩
      | true =>
          cases h2 : get_file_info st.FILES file_id with
          | none =>
              rw [api_delete_file]
              simp only [h1, h2, not_true_eq_false, if_false]
              exact ⟨hinv, hpaths⟩
          | some fi =>
              cases h3 : (storeGet st.store fi.path).isNone || removeFails with
              | true =>
                  rw [api_delete_file]
                  simp only [h1, h2, h3, not_true_eq_false, if_false, if_true]
                  exact ⟨hinv, hpaths⟩
              | false =>
                  have hdel : api_delete_file API_KEY st auth_header file_id removeFails =
                      ({ status := 200,
                         body := .jsonFields [("message", .s "File deleted successfully")] },
                       { FILES := st.FILES.filter (fun f => f.id != file_id),
                         store := storeErase st.store fi.path }) := by
                    rw [api_delete_file]
                    simp [h1, h2, h3]
                  rw [hdel]
                  exact invariant_delete st fi file_id hinv hpaths h2
  | upload filePart file_id timestamp save =>
      cases save with
      | fail written => exact hreq.elim
      | ok =>
          rw [handle]
          cases h1 : checkAuth API_KEY auth_header with
          | false =>
              rw [api_upload_denied _ _ _ _ _ _ _ h1]
              exact ⟨hinv, hpaths⟩
          | true =>
              cases filePart with
              | none =>
                  rw [api_upload_no_part _ _ _ _ _ _ h1]
                  exact ⟨hinv, hpaths⟩
              | some fp =>
                  cases h2 : fp.filename == "" with
                  | true =>
                      rw [api_upload_empty_name _ _ _ _ _ _ _ h1 (by simpa using h2)]
                      exact ⟨hinv, hpaths⟩
                  | false =>
                      rw [api_upload_ok_eq API_KEY st auth_header fp file_id timestamp h1
                        (by simpa using h2)]
                      exact invariant_insert st {
                          id := file_id,
                          filename := secure_filename fp.filename,
                          path := joinPath UPLOAD_FOLDER file_id,
                          size_bytes := fp.content.length, timestamp := timestamp }
                        fp.content hinv hpaths rfl

theorem c2_witness :
    ((ApiRequest.upload (some { filename := "a.txt", content := [1, 2] }) "X" "t"
        .ok).saveCompletes ∧ Invariant st0 ∧ PathsConsistent st0) ∧
    (Invariant (handle "k" st0 (some "Bearer k")
        (.upload (some { filename := "a.txt", content := [1, 2] }) "X" "t" .ok)).2 ∧
      PathsConsistent (handle "k" st0 (some "Bearer k")
        (.upload (some { filename := "a.txt", content := [1, 2] }) "X" "t" .ok)).2) :=
  ⟨⟨trivial, by decide, by decide⟩,
   c2_invariant_preserved "k" st0 (some "Bearer k")
     (.upload (some { filename := "a.txt", content := [1, 2] }) "X" "t" .ok)
     trivial (by decide) (by decide)⟩
